import Mathlib

/-!
Verification of the identity and session subsystem of the unimart backend
(auth controller, user controller `changePassword`, and `authMiddleware`).

The JavaScript source is shallowly embedded:
- the Prisma `user` table is a `List User`; `findUnique({where:{email}})`
  becomes `findByEmail`, `update` becomes a pointwise map over the list;
- timestamps are `Nat` milliseconds; `new Date()` at request time is a `now`
  parameter; `Date.now() + 10*60*1000` becomes `now + tenMinutesMs`;
- bcrypt is external: `bcrypt.hash(p, 10)` is an explicit parameter
  `bhash : String → String` and `bcrypt.compare` a parameter
  `bcompare : String → String → Bool`;
- `jwt.sign({id}, secret, {expiresIn:'7d'})` is a `Token` record whose
  signature field carries the signing secret (symmetric-key abstraction);
  `jwt.verify` checks the secret and the expiry;
- JavaScript truthiness guards (`!email`) become `== ""` on `String` inputs,
  and the JS comparison `user.otpExpiry < new Date()` with a possibly null
  `otpExpiry` is embedded with the JS numeric coercion `null → 0`
  (`Option.getD 0`).
-/

/-- A row of the Prisma `user` table, restricted to the fields the identity
subsystem reads or writes.  `password` stores the bcrypt hash. -/
structure User where
  id : String
  fullName : String
  email : String
  password : String
  isVerified : Bool
  otp : Option String
  otpExpiry : Option Nat
deriving Repr, DecidableEq

/-- `prisma.user.findUnique({ where: { email } })` over the list model. -/
def findByEmail (db : List User) (email : String) : Option User :=
  db.find? (fun u => u.email == email)

/-- `prisma.user.findUnique({ where: { id } })` over the list model. -/
def findById (db : List User) (uid : String) : Option User :=
  db.find? (fun u => u.id == uid)

/-- `prisma.user.update({ where: q, data: f })`: rewrite the matching rows. -/
def updateWhere (db : List User) (q : User → Bool) (f : User → User) : List User :=
  db.map (fun u => if q u then f u else u)

/-- Update keyed by the unique `email` column. -/
def updateByEmail (db : List User) (email : String) (f : User → User) : List User :=
  updateWhere db (fun u => u.email == email) f

/-- Update keyed by the unique `id` column. -/
def updateById (db : List User) (uid : String) (f : User → User) : List User :=
  updateWhere db (fun u => u.id == uid) f

/-- An HTTP response as the controllers build it: status code and the
`message` field of the JSON body. -/
structure Resp where
  status : Nat
  message : String
deriving Repr, DecidableEq

def tenMinutesMs : Nat := 10 * 60 * 1000

def fiveMinutesMs : Nat := 5 * 60 * 1000

def sevenDaysMs : Nat := 7 * 24 * 60 * 60 * 1000

/-- `jwt.sign` output: the payload `{ id }`, the issued-at and expiry times,
and the signature, abstracted as the signing secret (HMAC with a shared
secret: verification succeeds exactly when the verifier holds the same
secret). -/
structure Token where
  id : String
  iat : Nat
  exp : Nat
  sig : String
deriving Repr, DecidableEq

/-- `generateToken` (auth controller, lines 10-12):
`jwt.sign({ id: user.id }, process.env.JWT_SECRET, { expiresIn: '7d' })`. -/
def generateToken (user : User) (secret : String) (now : Nat) : Token :=
  { id := user.id, iat := now, exp := now + sevenDaysMs, sig := secret }

/-- Result of `jwt.verify`: the decoded payload id, or a thrown
`JsonWebTokenError`/`TokenExpiredError`, both surfaced by the middleware as
the single `Invalid token` response. -/
inductive JwtResult where
  | ok (accountId : String)
  | invalidToken
deriving Repr, DecidableEq

/-- `jwt.verify(token, secret)` at time `now`: fails when the signature does
not verify or when `now` is at or past `exp` (jsonwebtoken raises
`TokenExpiredError` when the clock timestamp is `>= exp`). -/
def jwtVerify (t : Token) (secret : String) (now : Nat) : JwtResult :=
  if t.sig != secret then .invalidToken
  else if t.exp ≤ now then .invalidToken
  else .ok t.id

/-- The JS check `user.otp !== otp || user.otpExpiry < new Date()` from
`verifyOTP` (line 239) and `resetPassword` (line 437).  A null stored `otp`
never strict-equals a supplied string; a null `otpExpiry` coerces to 0 in the
relational comparison. -/
def otpCheckFails (storedOtp : Option String) (storedExpiry : Option Nat)
    (supplied : String) (now : Nat) : Bool :=
  storedOtp != some supplied || storedExpiry.getD 0 < now

/-- Observable side effects of `register`, recorded in program order: the
`sendOTP` call (with the gateway's outcome) and the `prisma.user.create`. -/
inductive Ev where
  | deliveryAttempt (email otp : String) (ok : Bool)
  | createRecord (email : String)
deriving Repr, DecidableEq

/-- Outcome of `register`: the HTTP response, the `user` field of the JSON
body (the value of `prisma.user.create`, sent back verbatim on line 188),
the resulting table, and the emitted events. -/
structure RegisterOut where
  status : Nat
  message : String
  user : Option User
  db : List User
  events : List Ev
deriving Repr, DecidableEq

/-- `register` (auth controller, lines 165-192).  `newId` stands for the id
the store assigns; `otp` is the value `generateOTP()` returned; `now` is
`Date.now()`; `deliveryOk` is the Notification Gateway's outcome.

`sendOTP` (sendEmail.js, embedded in server.js lines 52-69) awaits
`transporter.sendMail` with no internal catch, so a gateway failure rejects;
the rejection of the `await sendOTP(email, otp)` at line 175 lands in
`register`'s catch (lines 189-191), which answers the collapsed 500
`Registration failed` response — `bcrypt.hash` (line 177) and
`prisma.user.create` (line 178) never run and the store is untouched.

Modelled from the spec: the `prisma.user.create` call does not set
`isVerified`, and the Prisma schema is not under `src/`, so the created row
takes the schema default, which per the spec data model (§3: `isVerified`
false until successful OTP verification) is `false`. -/
def register (bhash : String → String) (db : List User)
    (newId fullName email password otp : String) (now : Nat)
    (deliveryOk : Bool) : RegisterOut :=
  match findByEmail db email with
  | some _ =>
    { status := 400, message := "Email already in use",
      user := none, db := db, events := [] }
  | none =>
    if deliveryOk then
      let otpExpiry := now + tenMinutesMs
      let hashedPassword := bhash password
      let u : User :=
        { id := newId, fullName := fullName, email := email,
          password := hashedPassword, isVerified := false,
          otp := some otp, otpExpiry := some otpExpiry }
      { status := 201, message := "OTP sent to email. Please verify to continue.",
        user := some u, db := db ++ [u],
        events := [.deliveryAttempt email otp true, .createRecord email] }
    else
      { status := 500, message := "Registration failed",
        user := none, db := db,
        events := [.deliveryAttempt email otp false] }

/-- `verifyOTP` (auth controller, lines 228-262).  The guard
`!email || !otp || !purpose` rejects the empty string (the only falsy
`String`). -/
def verifyOTP (db : List User) (email otp purpose : String) (now : Nat) :
    Resp × List User :=
  if email == "" || otp == "" || purpose == "" then
    (⟨400, "Email, OTP, and purpose are required."⟩, db)
  else
    match findByEmail db email with
    | none => (⟨404, "User not found"⟩, db)
    | some user =>
      if otpCheckFails user.otp user.otpExpiry otp now then
        (⟨400, "Invalid or expired OTP"⟩, db)
      else if purpose == "register" then
        if user.isVerified then
          (⟨400, "Already verified"⟩, db)
        else
          (⟨200, "Email verified successfully"⟩,
           updateByEmail db email (fun u =>
             { u with isVerified := true, otp := none, otpExpiry := none }))
      else if purpose == "forgot-password" then
        (⟨200, "OTP verified for password reset"⟩, db)
      else
        (⟨400, "Invalid purpose"⟩, db)

/-- `resendOTP` (auth controller, lines 264-287).  `newOtp` is the freshly
generated code; the 5-minute window is the resend policy. -/
def resendOTP (db : List User) (email newOtp : String) (now : Nat) :
    Resp × List User :=
  if email == "" then (⟨400, "Email is required."⟩, db)
  else
    match findByEmail db email with
    | none => (⟨404, "User not found"⟩, db)
    | some _ =>
      (⟨200, "OTP resent successfully"⟩,
       updateByEmail db email (fun u =>
         { u with otp := some newOtp, otpExpiry := some (now + fiveMinutesMs) }))

/-- Outcome of `login`: status, optional `message`, and on success the full
`user` row and the token, exactly the JSON body `{ user, token }` built on
line 343. -/
structure LoginOut where
  status : Nat
  message : Option String
  user : Option User
  token : Option Token
deriving Repr, DecidableEq

/-- `login` (auth controller, lines 329-347). -/
def login (bcompare : String → String → Bool) (secret : String)
    (db : List User) (email password : String) (now : Nat) : LoginOut :=
  match findByEmail db email with
  | none =>
    { status := 400, message := some "Invalid credentials",
      user := none, token := none }
  | some user =>
    if !(bcompare password user.password) then
      { status := 400, message := some "Invalid credentials",
        user := none, token := none }
    else if !user.isVerified then
      { status := 403, message := some "Please verify your email before logging in.",
        user := none, token := none }
    else
      { status := 200, message := none,
        user := some user, token := some (generateToken user secret now) }

/-- `forgotPassword` (auth controller, lines 374-395). -/
def forgotPassword (db : List User) (email newOtp : String) (now : Nat) :
    Resp × List User :=
  match findByEmail db email with
  | none => (⟨404, "User not found"⟩, db)
  | some _ =>
    (⟨200, "OTP sent to email for password reset."⟩,
     updateByEmail db email (fun u =>
       { u with otp := some newOtp, otpExpiry := some (now + tenMinutesMs) }))

/-- `resetPassword` (auth controller, lines 430-451). -/
def resetPassword (bhash : String → String) (db : List User)
    (email otp newPassword : String) (now : Nat) : Resp × List User :=
  match findByEmail db email with
  | none => (⟨404, "User not found"⟩, db)
  | some user =>
    if otpCheckFails user.otp user.otpExpiry otp now then
      (⟨400, "Invalid or expired OTP"⟩, db)
    else
      (⟨200, "Password reset successfully. You can now log in."⟩,
       updateByEmail db email (fun u =>
         { u with password := bhash newPassword, otp := none, otpExpiry := none }))

/-- `changePassword` (user controller, lines 121-145): keyed by the
authenticated caller's id, never by email. -/
def changePassword (bhash : String → String) (bcompare : String → String → Bool)
    (db : List User) (uid currentPassword newPassword : String) :
    Resp × List User :=
  if currentPassword == "" || newPassword == "" then
    (⟨400, "Both current and new passwords are required."⟩, db)
  else
    match findById db uid with
    | none => (⟨404, "User not found."⟩, db)
    | some user =>
      if !(bcompare currentPassword user.password) then
        (⟨401, "Incorrect current password."⟩, db)
      else
        (⟨200, "Password changed successfully."⟩,
         updateById db uid (fun u => { u with password := bhash newPassword }))

/-- JavaScript `String.prototype.split` with a one-character separator:
`"".split(c)` is `[""]`, adjacent separators produce empty pieces. -/
def splitOnChar (c : Char) : List Char → List (List Char)
  | [] => [[]]
  | a :: rest =>
    match splitOnChar c rest with
    | [] => if a = c then [[], []] else [[a]]
    | h :: t => if a = c then [] :: h :: t else (a :: h) :: t

/-- Decimal digit value of a character, if any. -/
def digitVal (c : Char) : Option Nat :=
  if '0' ≤ c ∧ c ≤ '9' then some (c.toNat - '0'.toNat) else none

/-- Accumulating decimal parser over a character list. -/
def parseNatAux : List Char → Nat → Option Nat
  | [], acc => some acc
  | c :: rest, acc =>
    match digitVal c with
    | none => none
    | some d => parseNatAux rest (10 * acc + d)

/-- Parse a non-empty all-digit character list as a `Nat`. -/
def parseNat (l : List Char) : Option Nat :=
  match l with
  | [] => none
  | _ => parseNatAux l 0

/-- `req.headers.authorization?.split(' ')[1]` (authMiddleware, line 7). -/
def extractBearer (authorization : Option String) : Option String :=
  authorization.bind
    (fun s => ((splitOnChar ' ' s.data).get? 1).map (fun l => ⟨l⟩))

/-- The serialized form a signed token travels in: dot-separated segments,
standing in for the three base64url segments of a JWT (base64url never
contains a dot, which is what makes the real format parseable). -/
def encodeToken (t : Token) : String :=
  t.id ++ "." ++ Nat.repr t.iat ++ "." ++ Nat.repr t.exp ++ "." ++ t.sig

/-- Decoding of a received token string; `none` is a malformed JWT, on which
`jwt.verify` throws `JsonWebTokenError`. -/
def decodeToken (s : String) : Option Token :=
  match splitOnChar '.' s.data with
  | [i, a, e, g] =>
    match parseNat a, parseNat e with
    | some iat, some exp => some ⟨⟨i⟩, iat, exp, ⟨g⟩⟩
    | _, _ => none
  | _ => none

/-- Outcome of `authMiddleware`: the three failure responses, or the resolved
user attached to the request. -/
inductive MwOut where
  | unauthorized
  | invalidToken
  | accountNotFound
  | ok (user : User)
deriving Repr, DecidableEq

/-- The HTTP response each middleware failure sends (`none` on success: the
middleware calls `next()` and sends nothing itself). -/
def mwResp : MwOut → Option Resp
  | .unauthorized => some ⟨401, "Unauthorized"⟩
  | .invalidToken => some ⟨401, "Invalid token"⟩
  | .accountNotFound => some ⟨404, "User not found"⟩
  | .ok _ => none

/-- `authMiddleware` (authMiddleware.js, lines 6-20).  A missing header or a
header with no second space-separated part yields no token (the JS `!token`
guard also rejects an empty second part); an undecodable, badly signed or
expired token makes `jwt.verify` throw, caught as `Invalid token`; a verified
id that no longer resolves yields the 404. -/
def authMiddleware (secret : String) (db : List User)
    (authorization : Option String) (now : Nat) : MwOut :=
  match extractBearer authorization with
  | none => .unauthorized
  | some tokStr =>
    if tokStr == "" then .unauthorized
    else
      match decodeToken tokStr with
      | none => .invalidToken
      | some t =>
        match jwtVerify t secret now with
        | .invalidToken => .invalidToken
        | .ok uid =>
          match findById db uid with
          | none => .accountNotFound
          | some user => .ok user

/-! ## Helper lemmas and concrete fixtures -/

/-- A keyed `update` leaves `find?` results related by the update function,
provided the update does not change the key. -/
theorem find?_updateWhere (p : User → Bool) (f : User → User)
    (hf : ∀ u, p (f u) = p u) :
    ∀ l : List User, (updateWhere l p f).find? p = (l.find? p).map f := by
  intro l
  induction l with
  | nil => rfl
  | cons u rest ih =>
    by_cases h : p u
    · simp [updateWhere, List.find?_cons, h, hf] at ih ⊢
    · simp [updateWhere, List.find?_cons, h, hf] at ih ⊢
      exact ih

/-- `findByEmail` after an email-keyed update, for email-preserving updates. -/
theorem findByEmail_updateByEmail (db : List User) (email : String)
    (f : User → User) (hf : ∀ u, (f u).email = u.email) :
    findByEmail (updateByEmail db email f) email
      = (findByEmail db email).map f := by
  have hp : ∀ u, ((f u).email == email) = (u.email == email) := by
    intro u; rw [hf]
  exact find?_updateWhere (fun u => u.email == email) f hp db

/-- A pointwise property closed under the update function survives
`updateWhere`. -/
theorem all_updateWhere (p q : User → Bool) (f : User → User) (l : List User)
    (h : l.all p = true) (hf : ∀ u, p u = true → p (f u) = true) :
    (updateWhere l q f).all p = true := by
  simp only [updateWhere, List.all_map, List.all_eq_true, Function.comp] at h ⊢
  intro u hu
  by_cases hq : q u
  · simpa [hq] using hf u (h u hu)
  · simpa [hq] using h u hu

/-- The OTP-state consistency predicate of the data-model invariant:
`pendingOtp` and `otpExpiry` are both set or both null. -/
def otpConsistent (u : User) : Bool :=
  u.otp.isSome == u.otpExpiry.isSome

/-- The invariant over the whole store. -/
def allOtpConsistent (db : List User) : Bool :=
  db.all otpConsistent

/-- Stand-in for `bcrypt.hash(p, 10)` in concrete scenarios. -/
def hashDemo (p : String) : String := "h:" ++ p

/-- Stand-in for `bcrypt.compare` matching `hashDemo`. -/
def compareDemo (p h : String) : Bool := h == "h:" ++ p

/-- A pending-verification account holding OTP `482910` expiring at 1000. -/
def alicePending : User :=
  { id := "u1", fullName := "Alice", email := "a@u.edu",
    password := "h:pw1", isVerified := false,
    otp := some "482910", otpExpiry := some 1000 }

/-- A verified account with cleared OTP state, as left by a successful
register-purpose `verifyOTP` or a successful `resetPassword`. -/
def aliceVerified : User :=
  { id := "u1", fullName := "Alice", email := "a@u.edu",
    password := "h:pw1", isVerified := true,
    otp := none, otpExpiry := none }

/-! ## C1 — OTP validation rule -/

/-- C1: the claim states a matching code arriving AT `otpExpiry` fails with
`InvalidOrExpiredOtp`.  The code's check is `user.otpExpiry < new Date()`, so
at `now = otpExpiry` with the matching code both `verifyOTP` and
`resetPassword` succeed: the claim is false at the boundary. -/
theorem C1_counterexample :
    (verifyOTP [alicePending] "a@u.edu" "482910" "register" 1000).1
        = ⟨200, "Email verified successfully"⟩
    ∧ (resetPassword hashDemo [alicePending] "a@u.edu" "482910" "npw" 1000).1
        = ⟨200, "Password reset successfully. You can now log in."⟩ := by
  decide

/-- C1 (amended): OTP validation succeeds iff the stored code equals the
supplied code (exact string match) AND `now` is at or before the stored
expiry (`now ≤ otpExpiry`, not strictly before); a matching code arriving
strictly after `otpExpiry` always fails `verifyOTP` and `resetPassword` with
`InvalidOrExpiredOtp`. -/
theorem C1_validation_rule :
    (∀ (storedCode supplied : String) (storedExpiry now : Nat),
      otpCheckFails (some storedCode) (some storedExpiry) supplied now = false
        ↔ (storedCode = supplied ∧ now ≤ storedExpiry))
    ∧ (∀ (db : List User) (u : User) (email code purpose : String)
        (now e : Nat),
        findByEmail db email = some u → u.otp = some code →
        u.otpExpiry = some e → e < now →
        email ≠ "" → code ≠ "" → purpose ≠ "" →
        (verifyOTP db email code purpose now).1
          = ⟨400, "Invalid or expired OTP"⟩)
    ∧ (∀ (bhash : String → String) (db : List User) (u : User)
        (email code newPassword : String) (now e : Nat),
        findByEmail db email = some u → u.otp = some code →
        u.otpExpiry = some e → e < now →
        (resetPassword bhash db email code newPassword now).1
          = ⟨400, "Invalid or expired OTP"⟩) := by
  refine ⟨?_, ?_, ?_⟩
  · intro storedCode supplied storedExpiry now
    simp [otpCheckFails]
  · intro db u email code purpose now e hfind hotp hexp hlt he hc hp
    have hfail : otpCheckFails u.otp u.otpExpiry code now = true := by
      simp [otpCheckFails, hotp, hexp, hlt]
    simp [verifyOTP, he, hc, hp, hfind, hfail]
  · intro bhash db u email code newPassword now e hfind hotp hexp hlt
    have hfail : otpCheckFails u.otp u.otpExpiry code now = true := by
      simp [otpCheckFails, hotp, hexp, hlt]
    simp [resetPassword, hfind, hfail]

/-- C1 witness: the amended rule applied to a concrete expired call. -/
theorem C1_validation_rule_witness :
    otpCheckFails (some "482910") (some 1000) "482910" 1000 = false
    ∧ (verifyOTP [alicePending] "a@u.edu" "482910" "register" 1001).1
        = ⟨400, "Invalid or expired OTP"⟩
    ∧ (resetPassword hashDemo [alicePending] "a@u.edu" "482910" "npw" 1001).1
        = ⟨400, "Invalid or expired OTP"⟩ := by
  refine ⟨by decide, ?_, ?_⟩
  · exact C1_validation_rule.2.1 [alicePending] alicePending "a@u.edu" "482910"
      "register" 1001 1000 (by decide) (by decide) (by decide) (by decide)
      (by decide) (by decide) (by decide)
  · exact C1_validation_rule.2.2 hashDemo [alicePending] alicePending "a@u.edu"
      "482910" "npw" 1001 1000 (by decide) (by decide) (by decide) (by decide)

/-! ## C2 — verify-once and the second-call error -/

/-- C2: the claim states the second `verifyOTP` with the same code fails
`AlreadyVerified`.  In the code the OTP check (line 239) runs before the
`isVerified` check (line 244), and the first call cleared the stored OTP, so
the second call fails with `Invalid or expired OTP`, a different error. -/
theorem C2_counterexample :
    (verifyOTP [alicePending] "a@u.edu" "482910" "register" 500).1
        = ⟨200, "Email verified successfully"⟩
    ∧ (verifyOTP (verifyOTP [alicePending] "a@u.edu" "482910" "register" 500).2
          "a@u.edu" "482910" "register" 600).1
        = ⟨400, "Invalid or expired OTP"⟩
    ∧ (Resp.mk 400 "Invalid or expired OTP") ≠ (Resp.mk 400 "Already verified") := by
  decide

/-- C2 (amended): a register-purpose `verifyOTP` with the correct code before
expiry sets `isVerified` to true and clears the OTP pair exactly once; a
second call for that account with the same code fails, but with
`InvalidOrExpiredOtp` (the stored OTP is now null), not `AlreadyVerified`. -/
theorem C2_verify_once :
    ∀ (db : List User) (u : User) (email code : String) (now now2 e : Nat),
      findByEmail db email = some u →
      u.isVerified = false → u.otp = some code → u.otpExpiry = some e →
      now ≤ e → email ≠ "" → code ≠ "" →
      (verifyOTP db email code "register" now).1
          = ⟨200, "Email verified successfully"⟩
      ∧ findByEmail (verifyOTP db email code "register" now).2 email
          = some { u with isVerified := true, otp := none, otpExpiry := none }
      ∧ (verifyOTP (verifyOTP db email code "register" now).2
            email code "register" now2).1
          = ⟨400, "Invalid or expired OTP"⟩ := by
  intro db u email code now now2 e hfind hver hotp hexp hle he hc
  have hok : otpCheckFails u.otp u.otpExpiry code now = false := by
    simp [otpCheckFails, hotp, hexp]
    omega
  have hupd : (verifyOTP db email code "register" now).2
      = updateByEmail db email (fun v =>
          { v with isVerified := true, otp := none, otpExpiry := none }) := by
    simp [verifyOTP, he, hc, hfind, hok, hver]
  have hfind2 : findByEmail
      (updateByEmail db email (fun v =>
        { v with isVerified := true, otp := none, otpExpiry := none })) email
      = some { u with isVerified := true, otp := none, otpExpiry := none } := by
    rw [findByEmail_updateByEmail db email
      (fun v => { v with isVerified := true, otp := none, otpExpiry := none })
      (fun v => rfl), hfind]
    rfl
  refine ⟨by simp [verifyOTP, he, hc, hfind, hok, hver], by rw [hupd]; exact hfind2, ?_⟩
  rw [hupd]
  simp [verifyOTP, he, hc, hfind2, otpCheckFails]

/-- C2 witness: the amended statement at the spec's own scenario values. -/
theorem C2_verify_once_witness :
    (verifyOTP [alicePending] "a@u.edu" "482910" "register" 500).1
        = ⟨200, "Email verified successfully"⟩
    ∧ findByEmail (verifyOTP [alicePending] "a@u.edu" "482910" "register" 500).2
          "a@u.edu"
        = some { alicePending with isVerified := true, otp := none, otpExpiry := none }
    ∧ (verifyOTP (verifyOTP [alicePending] "a@u.edu" "482910" "register" 500).2
          "a@u.edu" "482910" "register" 600).1
        = ⟨400, "Invalid or expired OTP"⟩ :=
  C2_verify_once [alicePending] alicePending "a@u.edu" "482910" 500 600 1000
    (by decide) (by decide) (by decide) (by decide) (by decide) (by decide)
    (by decide)

/-! ## C3 — delivery ordering in register -/

/-- C3: the claim states that when delivery fails the account is still
created.  `sendOTP` awaits `transporter.sendMail` with no catch, so the
gateway failure rejects and `register`'s catch answers 500 `Registration
failed` before `prisma.user.create` runs: on a concrete failed-delivery
registration the store stays empty and no account value is returned. -/
theorem C3_counterexample :
    register hashDemo [] "u1" "Alice" "a@u.edu" "pw1" "482910" 0 false
        = { status := 500, message := "Registration failed",
            user := none, db := [],
            events := [Ev.deliveryAttempt "a@u.edu" "482910" false] } := by
  decide

/-- C3 (amended): in `register`, OTP delivery via the Notification Gateway is
attempted before the account record is durably created, but if delivery
fails the account is NOT created: the `sendOTP` rejection lands in
`register`'s catch, which answers the collapsed 500 `Registration failed`
and never reaches `prisma.user.create`, leaving the store untouched. -/
theorem C3_delivery_before_create :
    ∀ (bhash : String → String) (db : List User)
      (newId fullName email password otp : String) (now : Nat),
      findByEmail db email = none →
      (register bhash db newId fullName email password otp now true).events
          = [Ev.deliveryAttempt email otp true, Ev.createRecord email]
      ∧ (register bhash db newId fullName email password otp now false).events
          = [Ev.deliveryAttempt email otp false]
      ∧ (register bhash db newId fullName email password otp now false).db = db
      ∧ (register bhash db newId fullName email password otp now false).status
          = 500
      ∧ (register bhash db newId fullName email password otp now false).user
          = none := by
  intro bhash db newId fullName email password otp now h
  refine ⟨?_, ?_, ?_, ?_, ?_⟩ <;> simp [register, h]

/-- C3 witness: the delivery-first ordering and the aborting failure path at
a concrete registration. -/
theorem C3_delivery_before_create_witness :
    (register hashDemo [] "u1" "Alice" "a@u.edu" "pw1" "482910" 0 true).events
        = [Ev.deliveryAttempt "a@u.edu" "482910" true, Ev.createRecord "a@u.edu"]
    ∧ (register hashDemo [] "u1" "Alice" "a@u.edu" "pw1" "482910" 0 false).events
        = [Ev.deliveryAttempt "a@u.edu" "482910" false]
    ∧ (register hashDemo [] "u1" "Alice" "a@u.edu" "pw1" "482910" 0 false).db = []
    ∧ (register hashDemo [] "u1" "Alice" "a@u.edu" "pw1" "482910" 0 false).status
        = 500
    ∧ (register hashDemo [] "u1" "Alice" "a@u.edu" "pw1" "482910" 0 false).user
        = none :=
  C3_delivery_before_create hashDemo [] "u1" "Alice" "a@u.edu" "pw1" "482910" 0
    (by decide)

/-! ## C4 — login error collapsing -/

/-- C4: `login` answers the identical `Invalid credentials` response whether
no account matches the email or the hash comparison fails, and answers the
distinct `EmailNotVerified` response when the credential matches but the
account is unverified. -/
theorem C4_login_errors :
    ∀ (bcompare : String → String → Bool) (secret : String) (db : List User)
      (email password : String) (now : Nat) (u : User),
      (findByEmail db email = none →
        login bcompare secret db email password now
          = ⟨400, some "Invalid credentials", none, none⟩)
      ∧ (findByEmail db email = some u → bcompare password u.password = false →
        login bcompare secret db email password now
          = ⟨400, some "Invalid credentials", none, none⟩)
      ∧ (findByEmail db email = some u → bcompare password u.password = true →
        u.isVerified = false →
        login bcompare secret db email password now
          = ⟨403, some "Please verify your email before logging in.", none, none⟩)
      ∧ (⟨403, some "Please verify your email before logging in.", none, none⟩ : LoginOut)
          ≠ ⟨400, some "Invalid credentials", none, none⟩ := by
  intro bcompare secret db email password now u
  refine ⟨fun h => by simp [login, h],
          fun h hc => by simp [login, h, hc],
          fun h hc hv => by simp [login, h, hc, hv],
          by decide⟩

/-- C4 witness: the three login outcomes at concrete stores. -/
theorem C4_login_errors_witness :
    login compareDemo "sec" [aliceVerified] "x@u.edu" "pw1" 9
        = ⟨400, some "Invalid credentials", none, none⟩
    ∧ login compareDemo "sec" [aliceVerified] "a@u.edu" "wrong" 9
        = ⟨400, some "Invalid credentials", none, none⟩
    ∧ login compareDemo "sec" [alicePending] "a@u.edu" "pw1" 9
        = ⟨403, some "Please verify your email before logging in.", none, none⟩ :=
  ⟨(C4_login_errors compareDemo "sec" [aliceVerified] "x@u.edu" "pw1" 9
      aliceVerified).1 (by decide),
   (C4_login_errors compareDemo "sec" [aliceVerified] "a@u.edu" "wrong" 9
      aliceVerified).2.1 (by decide) (by decide),
   (C4_login_errors compareDemo "sec" [alicePending] "a@u.edu" "pw1" 9
      alicePending).2.2.1 (by decide) (by decide) (by decide)⟩

/-! ## C5 — register validation and created-account shape -/

/-- C5: `register` on an already-bound email answers the `ValidationError`
response and leaves the store untouched (for either delivery outcome, since
the duplicate check runs first); every registration that creates an account
— the fresh-email, delivery-succeeded path, the only path through
`prisma.user.create` — creates it unverified with OTP set and expiry exactly
10 minutes from creation. -/
theorem C5_register_contract :
    ∀ (bhash : String → String) (db : List User)
      (newId fullName email password otp : String) (now : Nat)
      (deliveryOk : Bool) (u : User),
      (findByEmail db email = some u →
        register bhash db newId fullName email password otp now deliveryOk
          = { status := 400, message := "Email already in use",
              user := none, db := db, events := [] })
      ∧ (findByEmail db email = none →
        register bhash db newId fullName email password otp now true
          = { status := 201,
              message := "OTP sent to email. Please verify to continue.",
              user := some { id := newId, fullName := fullName, email := email,
                             password := bhash password, isVerified := false,
                             otp := some otp,
                             otpExpiry := some (now + tenMinutesMs) },
              db := db ++ [{ id := newId, fullName := fullName, email := email,
                             password := bhash password, isVerified := false,
                             otp := some otp,
                             otpExpiry := some (now + tenMinutesMs) }],
              events := [Ev.deliveryAttempt email otp true,
                         Ev.createRecord email] })
      ∧ (findByEmail db email = none →
        (register bhash db newId fullName email password otp now false).db
          = db) := by
  intro bhash db newId fullName email password otp now deliveryOk u
  exact ⟨fun h => by simp [register, h], fun h => by simp [register, h],
         fun h => by simp [register, h]⟩

/-- C5 witness: duplicate rejection, a concrete fresh registration, and the
non-creating failed-delivery path. -/
theorem C5_register_contract_witness :
    register hashDemo [aliceVerified] "u2" "Alice" "a@u.edu" "pw2" "111111" 7 true
        = { status := 400, message := "Email already in use",
            user := none, db := [aliceVerified], events := [] }
    ∧ register hashDemo [] "u1" "Bob" "b@u.edu" "pw1" "222333" 7 true
        = { status := 201,
            message := "OTP sent to email. Please verify to continue.",
            user := some { id := "u1", fullName := "Bob", email := "b@u.edu",
                           password := hashDemo "pw1", isVerified := false,
                           otp := some "222333",
                           otpExpiry := some (7 + tenMinutesMs) },
            db := [] ++ [{ id := "u1", fullName := "Bob", email := "b@u.edu",
                           password := hashDemo "pw1", isVerified := false,
                           otp := some "222333",
                           otpExpiry := some (7 + tenMinutesMs) }],
            events := [Ev.deliveryAttempt "b@u.edu" "222333" true,
                       Ev.createRecord "b@u.edu"] }
    ∧ (register hashDemo [] "u1" "Bob" "b@u.edu" "pw1" "222333" 7 false).db
        = [] :=
  ⟨(C5_register_contract hashDemo [aliceVerified] "u2" "Alice" "a@u.edu" "pw2"
      "111111" 7 true aliceVerified).1 (by decide),
   (C5_register_contract hashDemo [] "u1" "Bob" "b@u.edu" "pw1" "222333" 7 true
      aliceVerified).2.1 (by decide),
   (C5_register_contract hashDemo [] "u1" "Bob" "b@u.edu" "pw1" "222333" 7 false
      aliceVerified).2.2 (by decide)⟩

/-! ## C6 — password hash exposure -/

/-- C6: the claim states the account values returned by a successful
`register` and a successful `login` do not contain `passwordHash`.  The code
sends the full Prisma row back (`res.json({..., user})` on line 188 and
`res.json({user, token})` on line 343) with no field selection, so the
response's `user` carries the stored bcrypt hash in its `password` field:
the code contradicts the spec's stated boundary (and the repository's own
profile endpoints, which `select` away the password). -/
theorem C6_password_hash_exposed :
    ((register hashDemo [] "u1" "Alice" "a@u.edu" "pw1" "482910" 0 true).user.map
        User.password) = some (hashDemo "pw1")
    ∧ ((login compareDemo "sec" [aliceVerified] "a@u.edu" "pw1" 99).user.map
        User.password) = some "h:pw1"
    ∧ aliceVerified.password = "h:pw1" := by
  decide

/-! ## C7 — session token round-trip -/

/-- C7: verifying a freshly issued token with the issuing secret inside the
7-day validity window returns the embedded account id; at or after the end
of the window verification fails with `InvalidToken`. -/
theorem C7_token_roundtrip :
    ∀ (u : User) (secret : String) (now now2 : Nat),
      (now ≤ now2 → now2 < now + sevenDaysMs →
        jwtVerify (generateToken u secret now) secret now2 = .ok u.id)
      ∧ (now + sevenDaysMs ≤ now2 →
        jwtVerify (generateToken u secret now) secret now2 = .invalidToken) := by
  intro u secret now now2
  constructor
  · intro h1 h2
    simp [generateToken, jwtVerify]
    omega
  · intro h1
    simp [generateToken, jwtVerify]
    omega

/-- C7 witness: a concrete issue/verify round-trip and expiry failure. -/
theorem C7_token_roundtrip_witness :
    jwtVerify (generateToken aliceVerified "sec" 100) "sec" 500
        = .ok aliceVerified.id
    ∧ jwtVerify (generateToken aliceVerified "sec" 100) "sec" (100 + sevenDaysMs)
        = .invalidToken :=
  ⟨(C7_token_roundtrip aliceVerified "sec" 100 500).1 (by decide) (by decide),
   (C7_token_roundtrip aliceVerified "sec" 100 (100 + sevenDaysMs)).2 (by decide)⟩

/-! ## C8 — OTP/expiry both-or-neither invariant -/

/-- Consistency-preserving updates preserve the store invariant. -/
theorem allOtpConsistent_updateWhere (db : List User) (q : User → Bool)
    (f : User → User) (hinv : allOtpConsistent db = true)
    (hf : ∀ u, otpConsistent u = true → otpConsistent (f u) = true) :
    allOtpConsistent (updateWhere db q f) = true :=
  all_updateWhere otpConsistent q f db hinv hf

/-- C8: every operation of the identity subsystem preserves the invariant
that each account's `otp` and `otpExpiry` are both set or both null:
`register` creates them together, `verifyOTP` and `resetPassword` clear them
together, `resendOTP` and `forgotPassword` overwrite them together, and
`changePassword` touches neither. -/
theorem C8_otp_invariant :
    ∀ (bhash : String → String) (bcompare : String → String → Bool)
      (db : List User)
      (newId fullName email password otp purpose newOtp code npw uid cur : String)
      (now : Nat) (deliveryOk : Bool),
      allOtpConsistent db = true →
      allOtpConsistent
          (register bhash db newId fullName email password otp now deliveryOk).db
          = true
      ∧ allOtpConsistent (verifyOTP db email code purpose now).2 = true
      ∧ allOtpConsistent (resendOTP db email newOtp now).2 = true
      ∧ allOtpConsistent (forgotPassword db email newOtp now).2 = true
      ∧ allOtpConsistent (resetPassword bhash db email code npw now).2 = true
      ∧ allOtpConsistent (changePassword bhash bcompare db uid cur npw).2 = true := by
  intro bhash bcompare db newId fullName email password otp purpose newOtp code
    npw uid cur now deliveryOk hinv
  refine ⟨?_, ?_, ?_, ?_, ?_, ?_⟩
  · cases h : findByEmail db email with
    | none =>
      cases deliveryOk with
      | true =>
        simp only [register, h, allOtpConsistent, List.all_append, if_true] at *
        simp [hinv, otpConsistent]
      | false => simpa [register, h, allOtpConsistent] using hinv
    | some u => simpa [register, h, allOtpConsistent] using hinv
  · unfold verifyOTP
    split
    · exact hinv
    · cases h : findByEmail db email with
      | none => simp [h, hinv]
      | some u =>
        simp only [h]
        split
        · exact hinv
        · split
          · split
            · exact hinv
            · exact allOtpConsistent_updateWhere db _ _ hinv (fun v _ => rfl)
          · split
            · exact hinv
            · exact hinv
  · unfold resendOTP
    split
    · exact hinv
    · cases h : findByEmail db email with
      | none => simp [h, hinv]
      | some u =>
        simp only [h]
        exact allOtpConsistent_updateWhere db _ _ hinv (fun v _ => rfl)
  · unfold forgotPassword
    cases h : findByEmail db email with
    | none => simp [h, hinv]
    | some u =>
      simp only [h]
      exact allOtpConsistent_updateWhere db _ _ hinv (fun v _ => rfl)
  · unfold resetPassword
    cases h : findByEmail db email with
    | none => simp [h, hinv]
    | some u =>
      simp only [h]
      split
      · exact hinv
      · exact allOtpConsistent_updateWhere db _ _ hinv (fun v _ => rfl)
  · unfold changePassword
    split
    · exact hinv
    · cases h : findById db uid with
      | none => simp [h, hinv]
      | some u =>
        simp only [h]
        split
        · exact hinv
        · refine allOtpConsistent_updateWhere db _ _ hinv (fun v hv => ?_)
          simpa [otpConsistent] using hv

/-- C8 witness: the invariant after each operation on a concrete store. -/
theorem C8_otp_invariant_witness :
    allOtpConsistent
        (register hashDemo [alicePending] "u2" "Bob" "a@u.edu" "pw" "111111" 3 true).db
        = true
    ∧ allOtpConsistent (verifyOTP [alicePending] "a@u.edu" "482910" "register" 3).2 = true
    ∧ allOtpConsistent (resendOTP [alicePending] "a@u.edu" "655443" 3).2 = true
    ∧ allOtpConsistent (forgotPassword [alicePending] "a@u.edu" "655443" 3).2 = true
    ∧ allOtpConsistent (resetPassword hashDemo [alicePending] "a@u.edu" "482910" "npw" 3).2 = true
    ∧ allOtpConsistent (changePassword hashDemo compareDemo [alicePending] "u1" "pw1" "npw").2 = true :=
  C8_otp_invariant hashDemo compareDemo [alicePending] "u2" "Bob" "a@u.edu" "pw"
    "111111" "register" "655443" "482910" "npw" "u1" "pw1" 3 true (by decide)

/-! ## C9 — three distinct session-boundary failures -/

/-- C9: the session verification boundary answers `Unauthorized` (401,
`Unauthorized`) when no bearer token can be extracted from the header,
`InvalidToken` (401, `Invalid token`) when the token fails to decode, fails
signature verification or has expired, and `AccountNotFound` (404,
`User not found`) when the verified id no longer resolves; the three
responses are pairwise distinct. -/
theorem C9_middleware_failures :
    ∀ (secret : String) (db : List User) (now : Nat),
      (∀ h, extractBearer h = none →
        authMiddleware secret db h now = .unauthorized)
      ∧ (∀ h, extractBearer h = some "" →
        authMiddleware secret db h now = .unauthorized)
      ∧ (∀ h s, extractBearer h = some s → s ≠ "" → decodeToken s = none →
        authMiddleware secret db h now = .invalidToken)
      ∧ (∀ h s t, extractBearer h = some s → s ≠ "" → decodeToken s = some t →
        jwtVerify t secret now = .invalidToken →
        authMiddleware secret db h now = .invalidToken)
      ∧ (∀ h s t uid, extractBearer h = some s → s ≠ "" → decodeToken s = some t →
        jwtVerify t secret now = .ok uid → findById db uid = none →
        authMiddleware secret db h now = .accountNotFound)
      ∧ (mwResp .unauthorized ≠ mwResp .invalidToken
        ∧ mwResp .unauthorized ≠ mwResp .accountNotFound
        ∧ mwResp .invalidToken ≠ mwResp .accountNotFound) := by
  intro secret db now
  refine ⟨?_, ?_, ?_, ?_, ?_, by decide⟩
  · intro h hx
    simp [authMiddleware, hx]
  · intro h hx
    simp [authMiddleware, hx]
  · intro h s hx hs hd
    simp [authMiddleware, hx, hs, hd]
  · intro h s t hx hs hd hv
    simp [authMiddleware, hx, hs, hd, hv]
  · intro h s t uid hx hs hd hv hf
    simp [authMiddleware, hx, hs, hd, hv, hf]

/-- C9 witness: each failure kind at a concrete header. -/
theorem C9_middleware_failures_witness :
    authMiddleware "sec" [alicePending] (some "Bearer") 0 = .unauthorized
    ∧ authMiddleware "sec" [alicePending] (some "Bearer ") 0 = .unauthorized
    ∧ authMiddleware "sec" [alicePending] (some "Bearer garbage") 0 = .invalidToken
    ∧ authMiddleware "sec" [alicePending]
        (some ("Bearer " ++ encodeToken (generateToken alicePending "other" 0))) 0
        = .invalidToken
    ∧ authMiddleware "sec" []
        (some ("Bearer " ++ encodeToken (generateToken alicePending "sec" 0))) 5
        = .accountNotFound :=
  ⟨(C9_middleware_failures "sec" [alicePending] 0).1 (some "Bearer") (by decide),
   (C9_middleware_failures "sec" [alicePending] 0).2.1 (some "Bearer ") (by decide),
   (C9_middleware_failures "sec" [alicePending] 0).2.2.1 (some "Bearer garbage")
     "garbage" (by decide) (by decide) (by decide),
   (C9_middleware_failures "sec" [alicePending] 0).2.2.2.1
     (some ("Bearer " ++ encodeToken (generateToken alicePending "other" 0)))
     (encodeToken (generateToken alicePending "other" 0))
     (generateToken alicePending "other" 0)
     (by decide) (by decide) (by decide) (by decide),
   (C9_middleware_failures "sec" [] 5).2.2.2.2.1
     (some ("Bearer " ++ encodeToken (generateToken alicePending "sec" 0)))
     (encodeToken (generateToken alicePending "sec" 0))
     (generateToken alicePending "sec" 0) "u1"
     (by decide) (by decide) (by decide) (by decide) (by decide)⟩

/-! ## C10 — a consumed (null) OTP cannot be replayed -/

/-- C10: the claim quantifies over EVERY supplied code and purpose, but the
`verifyOTP` guard at line 232 rejects an empty (falsy) code with the
required-fields `ValidationError` message, not `InvalidOrExpiredOtp`: on an
account whose stored OTP is null, the call with code `""` fails with a
different error than the claim states. -/
theorem C10_counterexample :
    aliceVerified.otp = none
    ∧ (verifyOTP [aliceVerified] "a@u.edu" "" "register" 5).1
        = ⟨400, "Email, OTP, and purpose are required."⟩
    ∧ (Resp.mk 400 "Email, OTP, and purpose are required.")
        ≠ (Resp.mk 400 "Invalid or expired OTP") := by
  decide

/-- C10 (amended): for an account whose stored OTP is null, every `verifyOTP`
call with nonempty email, code and purpose fails `InvalidOrExpiredOtp` (empty
ones fail the required-fields `ValidationError` instead), and every
`resetPassword` call fails `InvalidOrExpiredOtp` for every supplied code; in
particular a reset OTP consumed by a successful `resetPassword` (which nulls
the stored OTP) cannot be replayed in a second `resetPassword` call. -/
theorem C10_consumed_otp :
    (∀ (db : List User) (u : User) (email code purpose : String) (now : Nat),
      findByEmail db email = some u → u.otp = none →
      email ≠ "" → code ≠ "" → purpose ≠ "" →
      (verifyOTP db email code purpose now).1
          = ⟨400, "Invalid or expired OTP"⟩)
    ∧ (∀ (bhash : String → String) (db : List User) (u : User)
        (email code npw : String) (now : Nat),
      findByEmail db email = some u → u.otp = none →
      (resetPassword bhash db email code npw now).1
          = ⟨400, "Invalid or expired OTP"⟩)
    ∧ (∀ (bhash : String → String) (db : List User) (u : User)
        (email code npw npw2 : String) (now now2 e : Nat),
      findByEmail db email = some u → u.otp = some code →
      u.otpExpiry = some e → now ≤ e →
      (resetPassword bhash db email code npw now).1
          = ⟨200, "Password reset successfully. You can now log in."⟩
      ∧ (resetPassword bhash (resetPassword bhash db email code npw now).2
            email code npw2 now2).1
          = ⟨400, "Invalid or expired OTP"⟩) := by
  refine ⟨?_, ?_, ?_⟩
  · intro db u email code purpose now hfind hotp he hc hp
    simp [verifyOTP, he, hc, hp, hfind, otpCheckFails, hotp]
  · intro bhash db u email code npw now hfind hotp
    simp [resetPassword, hfind, otpCheckFails, hotp]
  · intro bhash db u email code npw npw2 now now2 e hfind hotp hexp hle
    have hok : otpCheckFails u.otp u.otpExpiry code now = false := by
      simp [otpCheckFails, hotp, hexp]
      omega
    have hupd : (resetPassword bhash db email code npw now).2
        = updateByEmail db email (fun v =>
            { v with password := bhash npw, otp := none, otpExpiry := none }) := by
      simp [resetPassword, hfind, hok]
    have hfind2 : findByEmail
        (updateByEmail db email (fun v =>
          { v with password := bhash npw, otp := none, otpExpiry := none })) email
        = some { u with password := bhash npw, otp := none, otpExpiry := none } := by
      rw [findByEmail_updateByEmail db email
        (fun v => { v with password := bhash npw, otp := none, otpExpiry := none })
        (fun v => rfl), hfind]
      rfl
    refine ⟨by simp [resetPassword, hfind, hok], ?_⟩
    rw [hupd]
    simp [resetPassword, hfind2, otpCheckFails]

/-- C10 witness: null-OTP rejection and a concrete consumed-then-replayed
reset OTP. -/
theorem C10_consumed_otp_witness :
    (verifyOTP [aliceVerified] "a@u.edu" "482910" "register" 5).1
        = ⟨400, "Invalid or expired OTP"⟩
    ∧ (resetPassword hashDemo [aliceVerified] "a@u.edu" "482910" "npw" 5).1
        = ⟨400, "Invalid or expired OTP"⟩
    ∧ (resetPassword hashDemo [alicePending] "a@u.edu" "482910" "npw" 500).1
        = ⟨200, "Password reset successfully. You can now log in."⟩
    ∧ (resetPassword hashDemo
          (resetPassword hashDemo [alicePending] "a@u.edu" "482910" "npw" 500).2
          "a@u.edu" "482910" "npw2" 501).1
        = ⟨400, "Invalid or expired OTP"⟩ :=
  ⟨C10_consumed_otp.1 [aliceVerified] aliceVerified "a@u.edu" "482910" "register" 5
      (by decide) (by decide) (by decide) (by decide) (by decide),
   C10_consumed_otp.2.1 hashDemo [aliceVerified] aliceVerified "a@u.edu" "482910"
      "npw" 5 (by decide) (by decide),
   (C10_consumed_otp.2.2 hashDemo [alicePending] alicePending "a@u.edu" "482910"
      "npw" "npw2" 500 501 1000 (by decide) (by decide) (by decide) (by decide)).1,
   (C10_consumed_otp.2.2 hashDemo [alicePending] alicePending "a@u.edu" "482910"
      "npw" "npw2" 500 501 1000 (by decide) (by decide) (by decide) (by decide)).2⟩
